import Mathlib

/-
Verification development for a small design-patterns codebase:
an aggregating (composite) pipeline, a linked-chain (decorator) pipeline,
and a chain-of-responsibility exception handler.

The definitions below are shallow embeddings of the Python sources
`Composite_pipelining.py`, `Decorator_pipelining.py` and
`ChainOfResponsibility.py`.  Side effects (logging, shutdown, plugin
loading) are made explicit as transitions on a `World` record that
traces every call to the external collaborators.
-/

namespace Chain

/-- Log levels of the logging infrastructure (the `LogLevel` IntEnum). -/
inductive LogLevel
  | DEBUG
  | INFO
  | WARN
  | ERROR
deriving DecidableEq

/-- The exception categories the handlers dispatch on by `isinstance`:
`ModuleNotFoundError` (with its optional module `name`), `KeyboardInterrupt`,
`NotImplementedError`, and any other `BaseException` carrying a message. -/
inductive PyException
  | moduleNotFound (name : Option String)
  | keyboardInterrupt
  | notImplementedError
  | other (msg : String)
deriving DecidableEq

/-- A rendering of `str(ex)`, used for the f-string log messages. -/
def PyException.str : PyException → String
  | .moduleNotFound none => "ModuleNotFoundError"
  | .moduleNotFound (some n) => "No module named " ++ n
  | .keyboardInterrupt => "KeyboardInterrupt"
  | .notImplementedError => "NotImplementedError"
  | .other m => m

/-- Trace of all calls to the external collaborators (logger sink,
graceful shutdown, plugin loader): the observable effects of a handler run. -/
structure World where
  logs : List (String × LogLevel)
  shutdowns : Nat
  pluginLoads : List String
deriving DecidableEq

/-- `Logger.log(message, log_level)`: records the log call. -/
def Logger.log (w : World) (message : String) (log_level : LogLevel) : World :=
  { w with logs := w.logs ++ [(message, log_level)] }

/-- `GracefulShutdown.shutdown()`: records the shutdown call. -/
def GracefulShutdown.shutdown (w : World) : World :=
  { w with shutdowns := w.shutdowns + 1 }

/-- `PluginLoader.try_load_from_plugin(module_name)`: records the call and
returns `True`, as the concrete `PluginLoader` does. -/
def PluginLoader.try_load_from_plugin (w : World) (module_name : String) :
    Bool × World :=
  (true, { w with pluginLoads := w.pluginLoads ++ [module_name] })

/-- `ExceptionHandlingContext`: the exception plus the `is_handled` flag
(initialized to `False` at construction). -/
structure ExceptionHandlingContext where
  exception : PyException
  is_handled : Bool
deriving DecidableEq

/-- An `IExceptionHandler`: `handle` mutates the context and performs
side effects, modelled as returning the updated context and world. -/
def ExceptionHandler : Type :=
  ExceptionHandlingContext → World → ExceptionHandlingContext × World

/-- `ModuleNotFoundErrorHandler.handle`: returns unless the exception is a
`ModuleNotFoundError`; logs and declines when the module name is `None`;
otherwise sets `is_handled` to the plugin loader's result. -/
def ModuleNotFoundErrorHandler.handle : ExceptionHandler := fun ctx w =>
  match ctx.exception with
  | PyException.moduleNotFound name =>
    match name with
    | none =>
      (ctx, Logger.log w
        ("ModuleNotFoundError without module name: " ++ ctx.exception.str)
        LogLevel.ERROR)
    | some n =>
      let r := PluginLoader.try_load_from_plugin w n
      ({ ctx with is_handled := r.1 }, r.2)
  | _ => (ctx, w)

/-- `KeyboardInterruptHandler.handle`: returns unless the exception is a
`KeyboardInterrupt`; otherwise shuts down and sets `is_handled := True`. -/
def KeyboardInterruptHandler.handle : ExceptionHandler := fun ctx w =>
  match ctx.exception with
  | PyException.keyboardInterrupt =>
    ({ ctx with is_handled := true }, GracefulShutdown.shutdown w)
  | _ => (ctx, w)

/-- `NotImplementedErrorHandler.handle`: returns unless the exception is a
`NotImplementedError`; otherwise logs, shuts down, sets `is_handled := True`. -/
def NotImplementedErrorHandler.handle : ExceptionHandler := fun ctx w =>
  match ctx.exception with
  | PyException.notImplementedError =>
    let w1 := Logger.log w ("NotImplemented error: " ++ ctx.exception.str)
      LogLevel.ERROR
    ({ ctx with is_handled := true }, GracefulShutdown.shutdown w1)
  | _ => (ctx, w)

/-- `UnexpectedExceptionHandler.handle`: unconditionally logs, shuts down
and sets `is_handled := True`. -/
def UnexpectedExceptionHandler.handle : ExceptionHandler := fun ctx w =>
  let w1 := Logger.log w ("Unexpected exception: " ++ ctx.exception.str)
    LogLevel.ERROR
  ({ ctx with is_handled := true }, GracefulShutdown.shutdown w1)

/-- The `for handler in self.__exception_handlers: ... else: shutdown()`
loop of `ChainExceptionHandler.handle_exception`: each handler runs in turn,
the loop breaks at the first one that flips `is_handled`, and the `else`
branch (running only when the loop was not broken) invokes the fallback
`graceful_shutdown.shutdown()`. -/
def chainLoop : List ExceptionHandler → ExceptionHandlingContext → World → World
  | [], _, w => GracefulShutdown.shutdown w
  | h :: rest, ctx, w =>
    if (h ctx w).1.is_handled then (h ctx w).2
    else chainLoop rest (h ctx w).1 (h ctx w).2

/-- The same loop with the `for`/`else` fallback branch deleted: used to
express that the fallback branch is dead code for certain chains. -/
def chainLoopNoFallback :
    List ExceptionHandler → ExceptionHandlingContext → World → World
  | [], _, w => w
  | h :: rest, ctx, w =>
    if (h ctx w).1.is_handled then (h ctx w).2
    else chainLoopNoFallback rest (h ctx w).1 (h ctx w).2

/-- `ChainExceptionHandler.handle_exception(exception)`: creates a fresh
context with `is_handled = False` and runs the handler loop. -/
def ChainExceptionHandler.handle_exception (handlers : List ExceptionHandler)
    (exception : PyException) (w : World) : World :=
  chainLoop handlers (ExceptionHandlingContext.mk exception false) w

/-- Unconditional sequential run of all handlers (no break): used to state
which world the chain has built up at a given point. -/
def runAll : List ExceptionHandler → ExceptionHandlingContext → World →
    ExceptionHandlingContext × World
  | [], ctx, w => (ctx, w)
  | h :: rest, ctx, w => runAll rest (h ctx w).1 (h ctx w).2

/-- `allDecline handlers ctx w` holds when running the handlers in sequence
from `ctx` leaves `is_handled` false after every single step. -/
def allDecline : List ExceptionHandler → ExceptionHandlingContext → World → Bool
  | [], _, _ => true
  | h :: rest, ctx, w =>
    !(h ctx w).1.is_handled && allDecline rest (h ctx w).1 (h ctx w).2

/-- The handler chain wired up in `good_main`. -/
def goodChain : List ExceptionHandler :=
  [ModuleNotFoundErrorHandler.handle, KeyboardInterruptHandler.handle,
   NotImplementedErrorHandler.handle, UnexpectedExceptionHandler.handle]

theorem chainLoop_allDecline (hs : List ExceptionHandler) :
    ∀ (ctx : ExceptionHandlingContext) (w : World),
      allDecline hs ctx w = true →
      chainLoop hs ctx w = GracefulShutdown.shutdown (runAll hs ctx w).2 := by
  induction hs with
  | nil => intro ctx w _; rfl
  | cons h rest ih =>
    intro ctx w hd
    rw [allDecline, Bool.and_eq_true, Bool.not_eq_true'] at hd
    rw [chainLoop, runAll, hd.1]
    simp only [Bool.false_eq_true, if_false]
    exact ih _ _ hd.2

theorem chainLoop_append_decline (pre rest : List ExceptionHandler) :
    ∀ (ctx : ExceptionHandlingContext) (w : World),
      allDecline pre ctx w = true →
      chainLoop (pre ++ rest) ctx w =
        chainLoop rest (runAll pre ctx w).1 (runAll pre ctx w).2 := by
  induction pre with
  | nil => intro ctx w _; rfl
  | cons h pre' ih =>
    intro ctx w hd
    rw [allDecline, Bool.and_eq_true, Bool.not_eq_true'] at hd
    rw [List.cons_append, chainLoop, runAll, hd.1]
    simp only [Bool.false_eq_true, if_false]
    exact ih _ _ hd.2

/-- C10: a `ChainExceptionHandler` with no handlers does not fail: for every
exception, `handle_exception` builds the context, the empty loop falls
straight to the `else` branch, and `graceful_shutdown.shutdown` is invoked
exactly once (the world changes only by one shutdown call). -/
theorem c10_empty_chain_shuts_down (ex : PyException) (w : World) :
    ChainExceptionHandler.handle_exception [] ex w =
      GracefulShutdown.shutdown w ∧
    (ChainExceptionHandler.handle_exception [] ex w).shutdowns =
      w.shutdowns + 1 ∧
    (ChainExceptionHandler.handle_exception [] ex w).logs = w.logs := by
  exact ⟨rfl, rfl, rfl⟩

/-- C2: if every handler in the configured sequence leaves the context's
`is_handled` flag false, then `handle_exception` ends by invoking the
configured fallback `graceful_shutdown.shutdown` exactly once on the world
the handlers produced; the exception is never silently discarded. -/
theorem c2_exhaustion_invokes_fallback_once (handlers : List ExceptionHandler)
    (ex : PyException) (w : World)
    (hd : allDecline handlers (ExceptionHandlingContext.mk ex false) w = true) :
    ChainExceptionHandler.handle_exception handlers ex w =
      GracefulShutdown.shutdown
        (runAll handlers (ExceptionHandlingContext.mk ex false) w).2 ∧
    (ChainExceptionHandler.handle_exception handlers ex w).shutdowns =
      (runAll handlers (ExceptionHandlingContext.mk ex false) w).2.shutdowns
        + 1 := by
  have h := chainLoop_allDecline handlers _ w hd
  exact ⟨h, by rw [ChainExceptionHandler.handle_exception, h]; rfl⟩

/-- Witness for C2: a one-handler chain that declines an unknown exception,
at the initial world; the fallback shutdown runs exactly once. -/
theorem c2_witness :
    allDecline [ModuleNotFoundErrorHandler.handle]
      (ExceptionHandlingContext.mk (PyException.other "boom") false)
      (World.mk [] 0 []) = true ∧
    ChainExceptionHandler.handle_exception [ModuleNotFoundErrorHandler.handle]
      (PyException.other "boom") (World.mk [] 0 []) =
      GracefulShutdown.shutdown
        (runAll [ModuleNotFoundErrorHandler.handle]
          (ExceptionHandlingContext.mk (PyException.other "boom") false)
          (World.mk [] 0 [])).2 :=
  ⟨rfl, (c2_exhaustion_invokes_fallback_once
    [ModuleNotFoundErrorHandler.handle] (PyException.other "boom")
    (World.mk [] 0 []) rfl).1⟩

/-- C3: in a chain `pre ++ hcl :: post`, if every handler of `pre` leaves
`is_handled` false and `hcl` is the first handler to set it true, then the
whole `handle_exception` run ends exactly with `hcl`'s output world: no
handler of `post` is ever invoked (the result does not depend on `post`)
and the fallback shutdown is not invoked. -/
theorem c3_short_circuit (pre post : List ExceptionHandler)
    (hcl : ExceptionHandler) (ex : PyException) (w : World)
    (h1 : allDecline pre (ExceptionHandlingContext.mk ex false) w = true)
    (h2 : (hcl (runAll pre (ExceptionHandlingContext.mk ex false) w).1
            (runAll pre (ExceptionHandlingContext.mk ex false) w).2).1.is_handled
          = true) :
    ChainExceptionHandler.handle_exception (pre ++ hcl :: post) ex w =
      (hcl (runAll pre (ExceptionHandlingContext.mk ex false) w).1
        (runAll pre (ExceptionHandlingContext.mk ex false) w).2).2 := by
  rw [ChainExceptionHandler.handle_exception,
    chainLoop_append_decline pre (hcl :: post) _ w h1, chainLoop, h2]
  simp only [if_true]

/-- Witness for C3: `[decliner, claimer, bomb]` where the module-not-found
handler declines an unknown exception, the unexpected-exception handler
claims it, and a keyboard-interrupt handler sits after it; the run stops at
the claimer's output world. -/
theorem c3_witness :
    allDecline [ModuleNotFoundErrorHandler.handle]
      (ExceptionHandlingContext.mk (PyException.other "x") false)
      (World.mk [] 0 []) = true ∧
    (UnexpectedExceptionHandler.handle
      (runAll [ModuleNotFoundErrorHandler.handle]
        (ExceptionHandlingContext.mk (PyException.other "x") false)
        (World.mk [] 0 [])).1
      (runAll [ModuleNotFoundErrorHandler.handle]
        (ExceptionHandlingContext.mk (PyException.other "x") false)
        (World.mk [] 0 [])).2).1.is_handled = true ∧
    ChainExceptionHandler.handle_exception
      [ModuleNotFoundErrorHandler.handle, UnexpectedExceptionHandler.handle,
       KeyboardInterruptHandler.handle]
      (PyException.other "x") (World.mk [] 0 []) =
      (UnexpectedExceptionHandler.handle
        (runAll [ModuleNotFoundErrorHandler.handle]
          (ExceptionHandlingContext.mk (PyException.other "x") false)
          (World.mk [] 0 [])).1
        (runAll [ModuleNotFoundErrorHandler.handle]
          (ExceptionHandlingContext.mk (PyException.other "x") false)
          (World.mk [] 0 [])).2).2 :=
  ⟨rfl, rfl,
    c3_short_circuit [ModuleNotFoundErrorHandler.handle]
      [KeyboardInterruptHandler.handle] UnexpectedExceptionHandler.handle
      (PyException.other "x") (World.mk [] 0 []) rfl rfl⟩

theorem chainLoop_unexpected_last (hs : List ExceptionHandler) :
    ∀ (ctx : ExceptionHandlingContext) (w : World),
      chainLoop (hs ++ [UnexpectedExceptionHandler.handle]) ctx w =
        chainLoopNoFallback (hs ++ [UnexpectedExceptionHandler.handle]) ctx w := by
  induction hs with
  | nil => intro ctx w; rfl
  | cons h hs ih =>
    intro ctx w
    rw [List.cons_append, chainLoop, chainLoopNoFallback]
    by_cases hc : (h ctx w).1.is_handled = true
    · rw [hc]; rfl
    · rw [Bool.not_eq_true] at hc
      rw [hc]
      simp only [Bool.false_eq_true, if_false]
      exact ih _ _

/-- C9: `UnexpectedExceptionHandler.handle` sets `is_handled` to true for
every context and world, whatever the exception's type, after logging and
invoking shutdown; consequently, for any chain whose last handler is an
`UnexpectedExceptionHandler`, `handle_exception` coincides with the same
loop with the exhaustion-fallback branch deleted — that branch is
unreachable for every input exception. -/
theorem c9_unexpected_last_fallback_unreachable
    (hs : List ExceptionHandler) (ex : PyException)
    (ctx : ExceptionHandlingContext) (w w' : World) :
    (UnexpectedExceptionHandler.handle ctx w').1.is_handled = true ∧
    (UnexpectedExceptionHandler.handle ctx w').2 =
      GracefulShutdown.shutdown
        (Logger.log w' ("Unexpected exception: " ++ ctx.exception.str)
          LogLevel.ERROR) ∧
    ChainExceptionHandler.handle_exception
        (hs ++ [UnexpectedExceptionHandler.handle]) ex w =
      chainLoopNoFallback (hs ++ [UnexpectedExceptionHandler.handle])
        (ExceptionHandlingContext.mk ex false) w :=
  ⟨rfl, rfl, chainLoop_unexpected_last hs _ w⟩

/-- C8: on the `good_main` chain with a `ModuleNotFoundError` whose name is
`None`: the module-not-found handler logs an error and leaves `is_handled`
false, the keyboard-interrupt and not-implemented handlers decline without
touching anything, the unexpected-exception handler sets `is_handled` true,
the exhaustion fallback is not invoked (the run equals the loop without the
fallback branch), and the final trace holds exactly one shutdown and exactly
one "Unexpected exception" log entry. -/
theorem c8_module_not_found_without_name_scenario :
    ChainExceptionHandler.handle_exception goodChain
        (PyException.moduleNotFound none) (World.mk [] 0 []) =
      World.mk
        [("ModuleNotFoundError without module name: ModuleNotFoundError",
            LogLevel.ERROR),
         ("Unexpected exception: ModuleNotFoundError", LogLevel.ERROR)]
        1 [] ∧
    (ModuleNotFoundErrorHandler.handle
        (ExceptionHandlingContext.mk (PyException.moduleNotFound none) false)
        (World.mk [] 0 [])) =
      (ExceptionHandlingContext.mk (PyException.moduleNotFound none) false,
        World.mk
          [("ModuleNotFoundError without module name: ModuleNotFoundError",
              LogLevel.ERROR)] 0 []) ∧
    (KeyboardInterruptHandler.handle
        (ExceptionHandlingContext.mk (PyException.moduleNotFound none) false)
        (World.mk
          [("ModuleNotFoundError without module name: ModuleNotFoundError",
              LogLevel.ERROR)] 0 [])) =
      (ExceptionHandlingContext.mk (PyException.moduleNotFound none) false,
        World.mk
          [("ModuleNotFoundError without module name: ModuleNotFoundError",
              LogLevel.ERROR)] 0 []) ∧
    (NotImplementedErrorHandler.handle
        (ExceptionHandlingContext.mk (PyException.moduleNotFound none) false)
        (World.mk
          [("ModuleNotFoundError without module name: ModuleNotFoundError",
              LogLevel.ERROR)] 0 [])) =
      (ExceptionHandlingContext.mk (PyException.moduleNotFound none) false,
        World.mk
          [("ModuleNotFoundError without module name: ModuleNotFoundError",
              LogLevel.ERROR)] 0 []) ∧
    (UnexpectedExceptionHandler.handle
        (ExceptionHandlingContext.mk (PyException.moduleNotFound none) false)
        (World.mk
          [("ModuleNotFoundError without module name: ModuleNotFoundError",
              LogLevel.ERROR)] 0 [])).1.is_handled = true ∧
    ChainExceptionHandler.handle_exception goodChain
        (PyException.moduleNotFound none) (World.mk [] 0 []) =
      chainLoopNoFallback goodChain
        (ExceptionHandlingContext.mk (PyException.moduleNotFound none) false)
        (World.mk [] 0 []) ∧
    (ChainExceptionHandler.handle_exception goodChain
        (PyException.moduleNotFound none) (World.mk [] 0 [])).shutdowns = 1 ∧
    (ChainExceptionHandler.handle_exception goodChain
        (PyException.moduleNotFound none) (World.mk [] 0 [])).logs.countP
      (fun e => e.1 == "Unexpected exception: ModuleNotFoundError") = 1 :=
  ⟨rfl, rfl, rfl, rfl, rfl, rfl, rfl, rfl⟩

end Chain

namespace Composite

/-
`Composite_pipelining.py`.  The `Dataset` is an opaque value type, so the
pipeline is embedded generically over the value type `α`; a transformer is
its `transform` capability, a function `α → α`.
-/

/-- `FunctionTransformer(f)`: its `transform` applies the wrapped function. -/
def FunctionTransformer {α : Type} (transformer : α → α) : α → α :=
  transformer

/-- The aggregating `Pipeline`: owns the ordered list of transformations. -/
structure Pipeline (α : Type) where
  transformations : List (α → α)

/-- The `list(*transformations)` call in the constructor of `Pipeline`:
the star unpacks the argument tuple, so the stages themselves become the
positional arguments of `list(...)`.  With zero stages this is `list()`;
with one stage `list(s1)` raises `TypeError` because a transformer is not
iterable; with two or more stages `list(s1, s2, ...)` raises `TypeError`
because `list` takes at most one argument. -/
def listUnpack {α : Type} (args : List (α → α)) :
    Except String (List (α → α)) :=
  match args with
  | [] => Except.ok []
  | [_] => Except.error "TypeError: IDatasetTransformer object is not iterable"
  | _ => Except.error "TypeError: list expected at most 1 argument"

/-- `Pipeline(s1, ..., sn)`: runs the constructor body
`self.__transformations = list(*transformations)`. -/
def pipelineNew {α : Type} (transformations : List (α → α)) :
    Except String (Pipeline α) :=
  (listUnpack transformations).map Pipeline.mk

/-- `Pipeline.append(transformer)`: appends to the stage list and returns
`self` (the updated pipeline object), modelled as (new state, return value). -/
def Pipeline.append {α : Type} (p : Pipeline α) (transformer : α → α) :
    Pipeline α × Option (Pipeline α) :=
  (Pipeline.mk (p.transformations ++ [transformer]),
   some (Pipeline.mk (p.transformations ++ [transformer])))

/-- `Pipeline.transform(dataset)`: folds the dataset through every
transformation in order. -/
def Pipeline.transform {α : Type} (p : Pipeline α) (dataset : α) : α :=
  p.transformations.foldl (fun d t => t d) dataset

/-- C1 (code bug): constructing the aggregating pipeline with one or more
initial stages raises a `TypeError` instead of building the stage list,
because the constructor writes `list(*transformations)` rather than
`list(transformations)`; even the repository's own `main()` calls
`Pipeline(stage1, stage2)` and would crash.  The claimed contain-and-fold
behavior is unreachable for every `n ≥ 1`. -/
theorem c1_constructor_unpack_type_error :
    pipelineNew [FunctionTransformer (fun n : Nat => n * 10),
                 FunctionTransformer (fun n : Nat => n + 1)] =
      Except.error "TypeError: list expected at most 1 argument" ∧
    pipelineNew [FunctionTransformer (fun n : Nat => n * 10)] =
      Except.error "TypeError: IDatasetTransformer object is not iterable" ∧
    pipelineNew ([] : List (Nat → Nat)) = Except.ok (Pipeline.mk []) :=
  ⟨rfl, rfl, rfl⟩

/-- C6: the aggregating pipeline with no stages is the identity stage:
`Pipeline()` builds the empty stage list, and its `transform` returns the
input unchanged for every input. -/
theorem c6_empty_pipeline_identity {α : Type} (dataset : α) :
    pipelineNew ([] : List (α → α)) = Except.ok (Pipeline.mk []) ∧
    (Pipeline.mk ([] : List (α → α))).transform dataset = dataset :=
  ⟨rfl, rfl⟩

end Composite

namespace Decorator

/-
`Decorator_pipelining.py`.  Each `DatasetTransformerStepBase` object owns a
private mutable `__next_step` reference; `Pipeline.append` rewires those
references.  The mutable object graph is embedded as the pipeline's list of
nodes, a node's next reference being either the terminal
`IdentityTransformer` or the position of another node in that list.
-/

/-- A step's `__next_step` reference: the terminal `IdentityTransformer`,
or the node stored at position `i` of the pipeline's `transformers` list. -/
inductive NextRef
  | identity
  | node (i : Nat)
deriving DecidableEq

/-- A `DatasetTransformerStepBase` object: its own transformation logic
(applied to the value before delegating, as every concrete subclass does)
and its current `__next_step` reference. -/
structure StepNode (α : Type) where
  f : α → α
  next : NextRef

/-- The linked-chain `Pipeline`: its `transformers` list of step objects. -/
structure Pipeline (α : Type) where
  transformers : List (StepNode α)

/-- `self.transformers[-1].set_next_step(r)`: rebinds the next reference of
the last node, leaving the rest of the list untouched. -/
def setLastNext {α : Type} : List (StepNode α) → NextRef → List (StepNode α)
  | [], _ => []
  | [s], r => [{ s with next := r }]
  | s :: rest, r => s :: setLastNext rest r

/-- `Pipeline.append(transformer)`: first `transformer.set_next_step(
IdentityTransformer())`, then if the list is nonempty
`self.transformers[-1].set_next_step(transformer)` (the new node's position
is the current length), then `self.transformers.append(transformer)`.
The method body has no `return` statement, so its return value is `None`:
the pair is (new pipeline state, returned value). -/
def Pipeline.append {α : Type} (p : Pipeline α) (s : StepNode α) :
    Pipeline α × Option (Pipeline α) :=
  (Pipeline.mk
    (setLastNext p.transformers (NextRef.node p.transformers.length) ++
      [{ s with next := NextRef.identity }]),
   none)

/-- `Pipeline(*transformers)`: starts from the empty list and appends each
stage in order. -/
def pipelineNew {α : Type} (transformers : List (StepNode α)) : Pipeline α :=
  transformers.foldl (fun p s => (p.append s).1) (Pipeline.mk [])

/-- Delegation: a node applies its own logic and then delegates to its next
reference; the terminal `IdentityTransformer` returns the value unchanged.
A next reference naming a position outside the list would be an undefined
next step; `fuel` bounds the delegation depth of the embedding. -/
def resolve {α : Type} (nodes : List (StepNode α)) :
    NextRef → Nat → α → Except String α
  | NextRef.identity, _, d => Except.ok d
  | NextRef.node _, 0, _ =>
    Except.error "RecursionError: maximum recursion depth exceeded"
  | NextRef.node i, fuel + 1, d =>
    match nodes.get? i with
    | none => Except.error "undefined next step"
    | some s => resolve nodes s.next fuel (s.f d)

/-- `Pipeline.transform(dataset)`: `self.transformers[0].transform(dataset)`.
Indexing `[0]` on an empty list raises `IndexError`; otherwise the first
node runs and delegates along the chain (the list's length bounds the
delegation depth of a terminal-closed chain). -/
def Pipeline.transform {α : Type} (p : Pipeline α) (dataset : α) :
    Except String α :=
  if p.transformers.length = 0 then
    Except.error "IndexError: list index out of range"
  else resolve p.transformers (NextRef.node 0) p.transformers.length dataset

/-- The next reference of the node at position `i`. -/
def nextAt {α : Type} (nodes : List (StepNode α)) (i : Nat) : Option NextRef :=
  (nodes.get? i).map StepNode.next

/-- Terminal-closed wiring: every node points at its successor and the last
node points at the terminal `IdentityTransformer`. -/
def wellWired {α : Type} (nodes : List (StepNode α)) : Bool :=
  (List.range nodes.length).all fun i =>
    decide (nextAt nodes i =
      some (if i + 1 < nodes.length then NextRef.node (i + 1)
            else NextRef.identity))

theorem wellWired_iff {α : Type} (nodes : List (StepNode α)) :
    wellWired nodes = true ↔
      ∀ i, i < nodes.length →
        nextAt nodes i =
          some (if i + 1 < nodes.length then NextRef.node (i + 1)
                else NextRef.identity) := by
  simp [wellWired, List.all_eq_true, List.mem_range]

theorem setLastNext_length {α : Type} :
    ∀ (l : List (StepNode α)) (r : NextRef),
      (setLastNext l r).length = l.length := by
  intro l
  induction l with
  | nil => intro r; rfl
  | cons a t ih =>
    intro r
    cases t with
    | nil => rfl
    | cons b t2 =>
      show (a :: setLastNext (b :: t2) r).length = (a :: b :: t2).length
      simp [ih r]

theorem nextAt_setLastNext_of_lt {α : Type} :
    ∀ (l : List (StepNode α)) (r : NextRef) (i : Nat), i + 1 < l.length →
      nextAt (setLastNext l r) i = nextAt l i := by
  intro l
  induction l with
  | nil => intro r i h; simp at h
  | cons a t ih =>
    intro r i h
    cases t with
    | nil => simp at h
    | cons b t2 =>
      cases i with
      | zero => rfl
      | succ j =>
        show nextAt (a :: setLastNext (b :: t2) r) (j + 1) =
          nextAt (a :: b :: t2) (j + 1)
        rw [nextAt, nextAt, List.get?_cons_succ, List.get?_cons_succ]
        exact ih r j (by simpa using h)

theorem nextAt_setLastNext_last {α : Type} :
    ∀ (l : List (StepNode α)) (r : NextRef), l ≠ [] →
      nextAt (setLastNext l r) (l.length - 1) = some r := by
  intro l
  induction l with
  | nil => intro r h; exact absurd rfl h
  | cons a t ih =>
    intro r _
    cases t with
    | nil => rfl
    | cons b t2 =>
      have h2 := ih r (List.cons_ne_nil b t2)
      show nextAt (a :: setLastNext (b :: t2) r) ((a :: b :: t2).length - 1) =
        some r
      have hlen : (a :: b :: t2).length - 1 = ((b :: t2).length - 1) + 1 := by
        simp
      rw [hlen, nextAt, List.get?_cons_succ]
      exact h2

theorem nextAt_append_of_lt {α : Type} (A B : List (StepNode α)) (i : Nat)
    (h : i < A.length) : nextAt (A ++ B) i = nextAt A i := by
  rw [nextAt, nextAt, List.get?_append h]

theorem nextAt_append_len {α : Type} (A : List (StepNode α))
    (b : StepNode α) : nextAt (A ++ [b]) A.length = some b.next := by
  rw [nextAt, List.get?_concat_length, Option.map_some']

theorem append_length {α : Type} (p : Pipeline α) (s : StepNode α) :
    ((p.append s).1).transformers.length = p.transformers.length + 1 := by
  simp [Pipeline.append, setLastNext_length]

theorem wellWired_append {α : Type} (p : Pipeline α) (s : StepNode α)
    (hw : wellWired p.transformers = true) :
    wellWired ((p.append s).1).transformers = true := by
  rw [wellWired_iff] at hw ⊢
  intro i hi
  rw [append_length] at hi
  have hA : (setLastNext p.transformers
      (NextRef.node p.transformers.length)).length = p.transformers.length :=
    setLastNext_length _ _
  show nextAt (setLastNext p.transformers
      (NextRef.node p.transformers.length) ++
      [{ s with next := NextRef.identity }]) i = _
  rw [append_length]
  by_cases hend : i = p.transformers.length
  · subst hend
    rw [if_neg (by omega)]
    have h3 := nextAt_append_len
      (setLastNext p.transformers (NextRef.node p.transformers.length))
      { s with next := NextRef.identity }
    rw [hA] at h3
    rw [h3]
  · have hilt : i < p.transformers.length := by omega
    rw [nextAt_append_of_lt _ _ i (by omega)]
    by_cases hsucc : i + 1 < p.transformers.length
    · rw [nextAt_setLastNext_of_lt _ _ i (by omega)]
      have := hw i hilt
      rw [if_pos hsucc] at this
      rw [this, if_pos (by omega)]
    · have hlast : i = p.transformers.length - 1 := by omega
      subst hlast
      rw [nextAt_setLastNext_last _ _ (by
        intro hnil
        rw [hnil] at hilt
        simp at hilt)]
      rw [if_pos (by omega)]
      have : p.transformers.length - 1 + 1 = p.transformers.length := by omega
      rw [this]

theorem pipelineNew_invariant {α : Type} (ss : List (StepNode α)) :
    ∀ p : Pipeline α, wellWired p.transformers = true →
      wellWired ((ss.foldl (fun p s => (p.append s).1) p).transformers)
        = true ∧
      (ss.foldl (fun p s => (p.append s).1) p).transformers.length =
        p.transformers.length + ss.length := by
  induction ss with
  | nil => intro p hp; exact ⟨hp, by simp⟩
  | cons s ss ih =>
    intro p hp
    have h1 := wellWired_append p s hp
    have h2 := ih ((p.append s).1) h1
    refine ⟨h2.1, ?_⟩
    rw [List.foldl_cons, h2.2, append_length, List.length_cons]
    omega

theorem resolve_identity {α : Type} (nodes : List (StepNode α)) (fuel : Nat)
    (d : α) : resolve nodes NextRef.identity fuel d = Except.ok d := by
  cases fuel <;> rfl

theorem resolve_ok {α : Type} (nodes : List (StepNode α))
    (hw : wellWired nodes = true) :
    ∀ (fuel i : Nat) (d : α), i < nodes.length → nodes.length - i ≤ fuel →
      ∃ y, resolve nodes (NextRef.node i) fuel d = Except.ok y := by
  rw [wellWired_iff] at hw
  intro fuel
  induction fuel with
  | zero => intro i d hi hf; omega
  | succ fuel ih =>
    intro i d hi hf
    have hni := hw i hi
    cases hg : nodes.get? i with
    | none =>
      rw [nextAt, hg] at hni
      simp at hni
    | some s =>
      rw [nextAt, hg, Option.map_some', Option.some_inj] at hni
      rw [resolve]
      simp only [hg]
      by_cases hlt : i + 1 < nodes.length
      · rw [if_pos hlt] at hni
        rw [hni]
        exact ih (i + 1) (s.f d) hlt (by omega)
      · rw [if_neg hlt] at hni
        rw [hni]
        exact ⟨s.f d, resolve_identity nodes fuel (s.f d)⟩

/-- `p.append(s1).append(s2)` on the linked-chain pipeline: the second
`.append` is called on the first call's return value; calling a method on
`None` raises `AttributeError`. -/
def fluentAppendTwice {α : Type} (p : Pipeline α) (s1 s2 : StepNode α) :
    Except String (Pipeline α) :=
  match (p.append s1).2 with
  | some q => Except.ok (q.append s2).1
  | none =>
    Except.error "AttributeError: NoneType object has no attribute append"

/-- C4: after every `append(S)` on a terminal-closed linked-chain pipeline,
the chain is again terminal-closed: `S` becomes the last node with its next
reference rebound to the terminal `IdentityTransformer`, and if a stage
`S1` was previously last, `S1`'s next reference is rebound to point at `S`
(the terminal previously installed after `S1` is gone), so the chain reads
`S1 -> S -> Terminal` with no dangling stage. -/
theorem c4_append_terminal_closed {α : Type} (p : Pipeline α)
    (s : StepNode α) (hw : wellWired p.transformers = true) :
    wellWired ((p.append s).1).transformers = true ∧
    ((p.append s).1).transformers.getLast? =
      some { s with next := NextRef.identity } ∧
    (p.transformers ≠ [] →
      nextAt ((p.append s).1).transformers (p.transformers.length - 1) =
        some (NextRef.node p.transformers.length)) := by
  refine ⟨wellWired_append p s hw, ?_, ?_⟩
  · show (setLastNext p.transformers (NextRef.node p.transformers.length) ++
      [{ s with next := NextRef.identity }]).getLast? = _
    rw [List.getLast?_concat]
  · intro hne
    have hA : (setLastNext p.transformers
        (NextRef.node p.transformers.length)).length =
        p.transformers.length := setLastNext_length _ _
    have hlt : p.transformers.length - 1 < (setLastNext p.transformers
        (NextRef.node p.transformers.length)).length := by
      rw [hA]
      have h0 := List.length_pos.mpr hne
      omega
    show nextAt (setLastNext p.transformers
        (NextRef.node p.transformers.length) ++
        [{ s with next := NextRef.identity }])
      (p.transformers.length - 1) = _
    rw [nextAt_append_of_lt _ _ _ hlt]
    exact nextAt_setLastNext_last _ _ hne

/-- Witness for C4: appending a second stage to a one-stage pipeline. -/
theorem c4_witness :
    wellWired (pipelineNew
      [StepNode.mk (fun n : Nat => n + 1) NextRef.identity]).transformers
      = true ∧
    (wellWired (((pipelineNew
        [StepNode.mk (fun n : Nat => n + 1) NextRef.identity]).append
        (StepNode.mk (fun n : Nat => n * 2)
          (NextRef.node 7))).1).transformers = true ∧
     (((pipelineNew
        [StepNode.mk (fun n : Nat => n + 1) NextRef.identity]).append
        (StepNode.mk (fun n : Nat => n * 2)
          (NextRef.node 7))).1).transformers.getLast? =
       some { StepNode.mk (fun n : Nat => n * 2) (NextRef.node 7) with
              next := NextRef.identity } ∧
     ((pipelineNew
        [StepNode.mk (fun n : Nat => n + 1) NextRef.identity]).transformers
        ≠ [] →
      nextAt (((pipelineNew
          [StepNode.mk (fun n : Nat => n + 1) NextRef.identity]).append
          (StepNode.mk (fun n : Nat => n * 2)
            (NextRef.node 7))).1).transformers
        ((pipelineNew
          [StepNode.mk (fun n : Nat => n + 1)
            NextRef.identity]).transformers.length - 1) =
        some (NextRef.node (pipelineNew
          [StepNode.mk (fun n : Nat => n + 1)
            NextRef.identity]).transformers.length))) :=
  ⟨rfl, c4_append_terminal_closed _ _ rfl⟩

/-- C5 counterexample: the claim includes chain length 0, but the empty
linked-chain pipeline's `transform` fails: `Pipeline().transform(x)`
indexes `transformers[0]` on an empty list and raises `IndexError`. -/
theorem c5_counterexample_empty_transform_fails :
    (pipelineNew ([] : List (StepNode Nat))).transform 0 =
      Except.error "IndexError: list index out of range" := rfl

/-- C5 (amended): for a linked-chain pipeline built via repeated `append`
from one or more stages, `transform` never fails: the chain is always
terminal-closed, so delegation never reaches an undefined next step.  The
empty pipeline is the exception: its `transform` raises an `IndexError`
(an empty-list indexing error, not an undefined-next error). -/
theorem c5_nonempty_transform_never_fails {α : Type}
    (ss : List (StepNode α)) (hne : ss ≠ []) (d : α) :
    ∃ y, (pipelineNew ss).transform d = Except.ok y := by
  obtain ⟨hww, hlen⟩ := pipelineNew_invariant ss (Pipeline.mk []) rfl
  have hpos : 0 < (pipelineNew ss).transformers.length := by
    rw [pipelineNew, hlen]
    simpa using List.length_pos.mpr hne
  have hww' : wellWired (pipelineNew ss).transformers = true := hww
  rw [Pipeline.transform, if_neg (by omega)]
  exact resolve_ok _ hww' _ 0 d hpos (by omega)

/-- Witness for C5 (amended): a one-stage pipeline transforms successfully. -/
theorem c5_witness :
    ([StepNode.mk (fun n : Nat => n + 1) NextRef.identity] :
      List (StepNode Nat)) ≠ [] ∧
    ∃ y, (pipelineNew
      [StepNode.mk (fun n : Nat => n + 1) NextRef.identity]).transform 0 =
      Except.ok y :=
  ⟨List.cons_ne_nil _ _,
   c5_nonempty_transform_never_fails
     [StepNode.mk (fun n : Nat => n + 1) NextRef.identity]
     (List.cons_ne_nil _ _) 0⟩

/-- C7 (code bug): the aggregating pipeline's `append` does return the
pipeline itself, but the linked-chain `Pipeline.append` body has no
`return` statement despite its `-> Pipeline` annotation, so it returns
`None`, and fluent chaining `p.append(s1).append(s2)` raises
`AttributeError` on the linked-chain variant. -/
theorem c7_decorator_append_returns_none :
    ((Pipeline.mk ([] : List (StepNode Nat))).append
      (StepNode.mk (fun n => n + 1) NextRef.identity)).2 = none ∧
    fluentAppendTwice (Pipeline.mk ([] : List (StepNode Nat)))
      (StepNode.mk (fun n => n + 1) NextRef.identity)
      (StepNode.mk (fun n => n * 2) NextRef.identity) =
      Except.error "AttributeError: NoneType object has no attribute append" ∧
    ∀ (β : Type) (p : Composite.Pipeline β) (t : β → β),
      (Composite.Pipeline.append p t).2 =
        some (Composite.Pipeline.append p t).1 :=
  ⟨rfl, rfl, fun _ _ _ => rfl⟩

end Decorator
